import Mathlib

/-!
Shallow embedding of the pulumi-snowflake object-lifecycle provider core.

Source files embedded:
  * `src/pulumi_snowflake/validation.py` (`Validation.validate_identifier`,
    `Validation.validate_object_name`)
  * `src/pulumi_snowflake/snowflakeprovider/snowflake_object_provider.py`
    (`SnowflakeObjectProvider`: `create`, `_check_required_attributes`,
    `_get_validated_autogenerated_name`, `_generate_sql_create_statement`,
    `_generate_sql_create_bindings`, `_execute_sql`)
  * `src/pulumi_snowflake/provider/attribute/value_or_token_attribute.py`
    (`ValueOrTokenAttribute`)

Parts of the repository referenced by that code but absent from `src/`
(`random_id.py`, `token.py`, `base_attribute.py`) are modelled from the
spec; each such definition carries a doc comment starting
`Modelled from the spec:`.
-/

namespace PulumiSnowflake

/-- Modelled from the spec: `Token` (`token.py` is not in `src/`): "an opaque
sentinel value (e.g. `NONE`, `AUTO`) with a fixed SQL literal spelling".
`sql` is that literal spelling. -/
structure Token where
  sql : String
deriving DecidableEq, Repr

/-- A Python value as it can appear in the inputs mapping: `None`, a string,
an integer, or a `Token` sentinel. -/
inductive PyVal where
  | none
  | str (s : String)
  | int (n : Int)
  | token (t : Token)
deriving DecidableEq, Repr

/-- Python `str(v)`, as used by f-string interpolation in
`_get_validated_autogenerated_name`.  Only the `str` case is exercised by the
claims; `str(None) = "None"`, integers print decimally, and a `Token` is
rendered by its SQL spelling (modelled — `token.py` is not in `src/`). -/
def pyStr : PyVal → String
  | PyVal.none => "None"
  | PyVal.str s => s
  | PyVal.int n => toString n
  | PyVal.token t => t.sql

/-- The inputs mapping (a Python dict with string keys).  Keys are unique in a
dict; lookup is by first occurrence. -/
def Inputs := List (String × PyVal)

/-- Python `inputs.get(k)`: the stored value, or `None` when the key is
absent.  (A stored `None` and an absent key are indistinguishable here,
exactly as with `dict.get`.) -/
def pyGet (inputs : Inputs) (k : String) : PyVal :=
  (List.lookup k inputs).getD PyVal.none

/-- Python `k in inputs` / `inputs[k]` raw lookup: `Option.none` when the key
is absent (where `inputs[k]` raises `KeyError`). -/
def pyLookup (inputs : Inputs) (k : String) : Option PyVal :=
  List.lookup k inputs

/-- The exceptions the embedded code can raise.  The Python code raises plain
`Exception`s distinguished by message; `keyError` and `typeError` are the
built-in exceptions raised by `inputs[k]` on a missing key and by `re.match`
on a non-string argument. -/
inductive Err where
  | invalidIdentifier (s : String)
  | invalidObjectName (s : String)
  | missingRequiredAttribute (n : String)
  | missingNameAttribute
  | keyError (n : String)
  | typeError
  | sqlExecutionError
deriving DecidableEq, Repr

/-! ## Validation (`src/pulumi_snowflake/validation.py`)

`validate_identifier` compiles `"^([A-Z,a-z,0-9$_])+$"` and calls
`pattern.match(id)`.  Two consequences of the exact Python semantics:

  * the character class `[A-Z,a-z,0-9$_]` contains the literal comma — inside
    `[...]` a comma is an ordinary character, not a separator;
  * `re.match` anchors only at the start, and `$` matches either at the end
    of the string or just before one final newline, so `"abc\n"` matches.

`validate_object_name` is identical with the class `[A-Z,a-z,0-9$_ ]`
(space added). -/

/-- Membership in the character class `[A-Z,a-z,0-9$_]` of the compiled
pattern in `validate_identifier` — note that the commas the source writes
inside the class are themselves members of the class. -/
def identChar (c : Char) : Bool :=
  (('A' ≤ c && c ≤ 'Z') || c = ',' || ('a' ≤ c && c ≤ 'z') ||
   ('0' ≤ c && c ≤ '9') || c = '$' || c = '_')

/-- Membership in the character class `[A-Z,a-z,0-9$_ ]` of the compiled
pattern in `validate_object_name`. -/
def objectNameChar (c : Char) : Bool :=
  identChar c || c = ' '

/-- Python `re.compile("^(cls)+$").match(s) is not None` (no flags): the
whole string consists of one or more class characters, optionally followed by
a single final newline (which `$` tolerates). -/
def reFullMatchPlus (cls : Char → Bool) (s : String) : Bool :=
  let l := if s.data.getLast? = some '\n' then s.data.dropLast else s.data
  !l.isEmpty && l.all cls

namespace Validation

/-- `Validation.validate_identifier` (`validation.py` lines 6–16). -/
def validate_identifier (id : String) : Except Err String :=
  if reFullMatchPlus identChar id then Except.ok id
  else Except.error (Err.invalidIdentifier id)

/-- `Validation.validate_object_name` (`validation.py` lines 18–26). -/
def validate_object_name (id : String) : Except Err String :=
  if reFullMatchPlus objectNameChar id then Except.ok id
  else Except.error (Err.invalidObjectName id)

end Validation

/-! ## Spec-side grammars (for refinement comparison only)

These two definitions follow the spec's words, not the source: the spec
states the identifier grammar as `^[A-Za-z0-9$_]+$` and the object-name
grammar as the same class "plus internal spaces".  They are compared with the
source-derived `Validation` functions above. -/

/-- Membership in the spec's character class `[A-Za-z0-9$_]` (spec §4.1). -/
def specIdentChar (c : Char) : Bool :=
  (('A' ≤ c && c ≤ 'Z') || ('a' ≤ c && c ≤ 'z') ||
   ('0' ≤ c && c ≤ '9') || c = '$' || c = '_')

/-- The spec's identifier grammar `^[A-Za-z0-9$_]+$`: non-empty, every
character in the class (spec §4.1, §8). -/
def specIdentifierOk (s : String) : Bool :=
  !s.isEmpty && s.data.all specIdentChar

/-- The spec's object-name grammar: non-empty, every character in
`[A-Za-z0-9$_]` or an internal space (not first, not last) (claim C2). -/
def specObjectNameOk (s : String) : Bool :=
  !s.isEmpty && s.data.all (fun c => specIdentChar c || c = ' ') &&
    s.data.head? ≠ some ' ' && s.data.getLast? ≠ some ' '

/-! ## Random ID generation -/

/-- Whether a character is a lowercase hexadecimal digit (`[a-f0-9]`). -/
def isLowerHexDigit (c : Char) : Bool :=
  ('0' ≤ c && c ≤ '9') || ('a' ≤ c && c ≤ 'f')

/-- The lowercase hex digit with value `d`: digits map to `'0'`–`'9'`,
values ten to fifteen map to `'a'`–`'f'`. -/
def hexChar (d : Fin 16) : Char :=
  if d.val < 10 then Char.ofNat ('0'.toNat + d.val)
  else Char.ofNat ('a'.toNat + (d.val - 10))

namespace RandomId

/-- Modelled from the spec: `RandomId.generate` (`random_id.py` is not in
`src/`).  Spec §4.2: "`generate(length) -> string` produces a string of
exactly `length` lowercase hex characters drawn from a …random source".  The
random source is made explicit as a function `rand` from draw index to hex
digit. -/
def generate (rand : Nat → Fin 16) (length : Nat) : String :=
  String.mk ((List.range length).map (fun i => hexChar (rand i)))

end RandomId

/-! ## Attributes

`SnowflakeObjectAttribute` is the abstract interface the core consumes: a
name, a required flag, and the two generation operations.  The concrete
implementations are `BaseAttribute` (modelled from the spec — its file is not
in `src/`) and `ValueOrTokenAttribute` (embedded from
`value_or_token_attribute.py`). -/

/-- An attribute as the lifecycle core sees it (`SnowflakeObjectAttribute`):
`name` (key in the input map), `required` (what `is_required()` returns), and
the two generation operations. -/
structure Attr where
  name : String
  required : Bool
  generate_sql : PyVal → String
  generate_bindings : PyVal → Option (List PyVal)

/-- Modelled from the spec: the data of a `BaseAttribute`
(`base_attribute.py` is not in `src/`).  Spec §4.3: a Value Attribute has a
declared `name` and a required flag; its `sql_name` defaults to the declared
name upper-cased. -/
structure BaseAttributeData where
  name : String
  required : Bool

/-- Modelled from the spec: `sql_name` "defaults to the attribute's declared
name, upper-cased" (spec §4.3).  Upper-casing is modelled character-wise. -/
def BaseAttributeData.sql_name (a : BaseAttributeData) : String :=
  String.mk (a.name.data.map Char.toUpper)

/-- Modelled from the spec: the plain Value Attribute's `generate_sql`
renders `"{SQL_NAME} = {placeholder}"` with the positional placeholder `?`
(spec §4.3, §8). -/
def BaseAttributeData.value_generate_sql (a : BaseAttributeData) (_value : PyVal) : String :=
  a.sql_name ++ " = ?"

/-- Modelled from the spec: the plain Value Attribute's `generate_bindings`
returns `(value,)` (spec §4.3). -/
def BaseAttributeData.value_generate_bindings (_a : BaseAttributeData) (value : PyVal) :
    Option (List PyVal) :=
  some [value]

/-- `ValueOrTokenAttribute` (`value_or_token_attribute.py`): a decorator
wrapping a plain `BaseAttribute` plus a `Token` sentinel.  Its `__init__`
calls `super().__init__(attribute.name, attribute.required)`, so its own
`name`/`required`/`sql_name` are taken from the wrapped attribute (with the
default upper-cased `sql_name`).  The Python field is named `attribute`
(a Lean keyword, so `attr` here). -/
structure ValueOrTokenAttribute where
  attr : BaseAttributeData
  token : Token

/-- `ValueOrTokenAttribute.generate_sql` (`value_or_token_attribute.py`
lines 19–23): on the token sentinel, render `"{self.sql_name} =
{self.token.sql}"`; otherwise delegate to the wrapped attribute. -/
def ValueOrTokenAttribute.generate_sql (w : ValueOrTokenAttribute) (value : PyVal) : String :=
  if value = PyVal.token w.token then
    w.attr.sql_name ++ " = " ++ w.token.sql
  else
    w.attr.value_generate_sql value

/-- `ValueOrTokenAttribute.generate_bindings` (`value_or_token_attribute.py`
lines 25–29): `None` on the token sentinel, else delegate. -/
def ValueOrTokenAttribute.generate_bindings (w : ValueOrTokenAttribute) (value : PyVal) :
    Option (List PyVal) :=
  if value = PyVal.token w.token then
    Option.none
  else
    w.attr.value_generate_bindings value

/-! ## The generic object lifecycle core
(`src/pulumi_snowflake/snowflakeprovider/snowflake_object_provider.py`)

Effects on the connection/cursor collaborators are recorded as an explicit
event trace; exception propagation is explicit (`Except`). -/

/-- One call on the database bridge, in the order the Python code makes
them: `self.connection_provider.get()`, `connection.cursor()`,
`cursor.execute(sql, bindings)`, `cursor.close()`, `connection.close()`. -/
inductive Event where
  | getConnection
  | openCursor
  | execute (sql : String) (bindings : List PyVal)
  | closeCursor
  | closeConnection
deriving DecidableEq, Repr

/-- `SnowflakeObjectProvider._execute_sql` (lines 124–136):

```python
connection = self.connection_provider.get()
cursor = connection.cursor()
try:
    cursor.execute('\n'.join(statement), (*bindings,))
finally:
    cursor.close()
connection.close()
```

`execFails` says whether `cursor.execute` raises.  When it does, the
`finally` still closes the cursor, the exception then propagates out of
`_execute_sql` — and the `connection.close()` line after the `try` block is
never reached.  Returns the trace of bridge calls and whether the call
returned normally. -/
def executeSql (statement : List String) (bindings : List PyVal) (execFails : Bool) :
    List Event × Bool :=
  let pre := [Event.getConnection, Event.openCursor,
              Event.execute (String.intercalate "\n" statement) bindings]
  if execFails then
    (pre ++ [Event.closeCursor], false)
  else
    (pre ++ [Event.closeCursor, Event.closeConnection], true)

/-- A provider instance: the object schema (`sql_name`, ordered attribute
list) plus the two abstract hooks subclasses supply. -/
structure SnowflakeObjectProvider where
  sql_name : String
  attributes : List Attr
  generate_sql_create_header : String → Inputs → String
  generate_outputs : String → Inputs → List (String × PyVal) → List (String × PyVal)

/-- The Pulumi `CreateResult(id_=…, outs=…)`. -/
structure CreateResult where
  id_ : String
  outs : List (String × PyVal)

namespace SnowflakeObjectProvider

/-- The per-attribute loop of `_check_required_attributes` (lines 81–83):

```python
for attribute in self.attributes:
    if attribute.is_required() and inputs[attribute.name] is None:
        raise Exception(f"Required input attribute '{attribute.name}' is not present")
```

`inputs[attribute.name]` is bracket access: a missing key raises `KeyError`
(the `and` short-circuits, so non-required attributes are never looked
up). -/
def checkRequiredLoop (attrs : List Attr) (inputs : Inputs) : Except Err Unit :=
  match attrs with
  | [] => Except.ok ()
  | a :: rest =>
    if a.required then
      match pyLookup inputs a.name with
      | Option.none => Except.error (Err.keyError a.name)
      | Option.some v =>
        if v = PyVal.none then Except.error (Err.missingRequiredAttribute a.name)
        else checkRequiredLoop rest inputs
    else checkRequiredLoop rest inputs

/-- `SnowflakeObjectProvider._check_required_attributes` (lines 77–85): the
per-attribute loop, then the name check

```python
if inputs.get("name") is None and inputs.get("resource_name") is None:
    raise Exception("At least one of 'name' or 'resource_name' must be provided")
``` -/
def check_required_attributes (p : SnowflakeObjectProvider) (inputs : Inputs) :
    Except Err Unit :=
  match checkRequiredLoop p.attributes inputs with
  | Except.error e => Except.error e
  | Except.ok _ =>
    if pyGet inputs "name" = PyVal.none ∧ pyGet inputs "resource_name" = PyVal.none then
      Except.error Err.missingNameAttribute
    else
      Except.ok ()

/-- `SnowflakeObjectProvider._get_validated_autogenerated_name`
(lines 87–96):

```python
name = inputs.get("name")
if name is None:
    name = f'{inputs["resource_name"]}_{RandomId.generate(7)}'
return Validation.validate_identifier(name)
```

`inputs["resource_name"]` raises `KeyError` on a missing key; a present
non-string `name` reaches `re.match` and raises `TypeError`. -/
def getValidatedAutogeneratedName (rand : Nat → Fin 16) (inputs : Inputs) :
    Except Err String :=
  match pyGet inputs "name" with
  | PyVal.none =>
    match pyLookup inputs "resource_name" with
    | Option.none => Except.error (Err.keyError "resource_name")
    | Option.some v =>
      Validation.validate_identifier (pyStr v ++ "_" ++ RandomId.generate rand 7)
  | PyVal.str s => Validation.validate_identifier s
  | _ => Except.error Err.typeError

/-- `SnowflakeObjectProvider._generate_sql_create_statement` (lines 105–113):
the header line from the subclass hook, then one `generate_sql` line per
attribute with a value. -/
def generateSqlCreateStatement (p : SnowflakeObjectProvider) (attributesWithValues : List Attr)
    (validated_name : String) (inputs : Inputs) : List String :=
  p.generate_sql_create_header validated_name inputs ::
    attributesWithValues.map (fun a => a.generate_sql (pyGet inputs a.name))

/-- `SnowflakeObjectProvider._generate_sql_create_bindings` (lines 115–122):
map `generate_bindings` over the attributes with values, drop the `None`
results, flatten the rest. -/
def generateSqlCreateBindings (attributesWithValues : List Attr) (inputs : Inputs) :
    List PyVal :=
  ((attributesWithValues.map (fun a => a.generate_bindings (pyGet inputs a.name))).filterMap
    id).flatten

/-- `SnowflakeObjectProvider._generate_outputs_from_attributes`
(lines 98–103): one entry per declared attribute, `inputs.get(a.name)`. -/
def generateOutputsFromAttributes (p : SnowflakeObjectProvider) (inputs : Inputs) :
    List (String × PyVal) :=
  p.attributes.map (fun a => (a.name, pyGet inputs a.name))

/-- `SnowflakeObjectProvider.create` (lines 53–75).  Returns the trace of
database-bridge events together with the result (`CreateResult`, or the
exception that propagated).  The provisional outputs dict
`{"name": validated_name, **self._generate_outputs_from_attributes(inputs)}`
is represented with the `"name"` entry first, as in Python's insertion
order. -/
def create (p : SnowflakeObjectProvider) (rand : Nat → Fin 16) (execFails : Bool)
    (inputs : Inputs) : List Event × Except Err CreateResult :=
  match p.check_required_attributes inputs with
  | Except.error e => ([], Except.error e)
  | Except.ok _ =>
    match getValidatedAutogeneratedName rand inputs with
    | Except.error e => ([], Except.error e)
    | Except.ok validated_name =>
      let attributes_with_values :=
        p.attributes.filter (fun a => pyGet inputs a.name ≠ PyVal.none)
      let sql_statements :=
        p.generateSqlCreateStatement attributes_with_values validated_name inputs
      let sql_bindings := generateSqlCreateBindings attributes_with_values inputs
      let res := executeSql sql_statements sql_bindings execFails
      if res.2 then
        let provisional_outputs :=
          ("name", PyVal.str validated_name) :: p.generateOutputsFromAttributes inputs
        (res.1, Except.ok
          { id_ := validated_name
            outs := p.generate_outputs validated_name inputs provisional_outputs })
      else
        (res.1, Except.error Err.sqlExecutionError)

end SnowflakeObjectProvider

/-- The `execute` calls occurring in a trace of bridge events, each with its
SQL text and bindings. -/
def execCalls (tr : List Event) : List (String × List PyVal) :=
  tr.filterMap (fun e =>
    match e with
    | Event.execute s b => some (s, b)
    | _ => Option.none)

/-! ## Concrete fixtures (used by witnesses and counterexamples) -/

/-- A deterministic random source for concrete evaluation: every draw is the
hex digit `0`. -/
def rand0 : Nat → Fin 16 := fun _ => 0

/-- A concrete required attribute, patterned on the FILE FORMAT `type`
attribute exercised by the tests. -/
def typeAttr : Attr :=
  { name := "type"
    required := true
    generate_sql := fun v => "TYPE = " ++ pyStr v
    generate_bindings := fun _ => Option.none }

/-- A concrete optional attribute that contributes one binding. -/
def commentAttr : Attr :=
  { name := "comment"
    required := false
    generate_sql := fun _ => "COMMENT = ?"
    generate_bindings := fun v => some [v] }

/-- A concrete optional attribute whose value is the token sentinel, so it
contributes no binding. -/
def compressionAttr : Attr :=
  { name := "compression"
    required := false
    generate_sql := fun _ => "COMPRESSION = NONE"
    generate_bindings := fun _ => Option.none }

/-- A concrete provider with a single required attribute, patterned on the
FILE FORMAT provider of the tests. -/
def fileFormatProvider : SnowflakeObjectProvider :=
  { sql_name := "FILE FORMAT"
    attributes := [typeAttr]
    generate_sql_create_header := fun name _ => "CREATE FILE FORMAT " ++ name
    generate_outputs := fun _ _ outs => outs }

/-- A concrete provider with three attributes, for exercising clause and
binding assembly. -/
def threeAttrProvider : SnowflakeObjectProvider :=
  { sql_name := "FILE FORMAT"
    attributes := [typeAttr, compressionAttr, commentAttr]
    generate_sql_create_header := fun name _ => "CREATE FILE FORMAT " ++ name
    generate_outputs := fun _ _ outs => outs }

/-- A concrete token sentinel, `NONE`. -/
def noneToken : Token := { sql := "NONE" }

/-- A concrete wrapped base attribute. -/
def compressionBase : BaseAttributeData := { name := "compression", required := false }

/-- A concrete Value-Or-Token attribute: `compression`, token `NONE`. -/
def compressionVot : ValueOrTokenAttribute := { attr := compressionBase, token := noneToken }

/-! ## Helper lemmas -/

/-- Every generated hex digit lies in `validate_identifier`'s character
class. -/
theorem identChar_hexChar : ∀ d : Fin 16, identChar (hexChar d) = true := by decide

/-- No generated hex digit is a newline. -/
theorem hexChar_ne_newline : ∀ d : Fin 16, hexChar d ≠ '\n' := by decide

/-- Every generated hex digit is a lowercase hex digit. -/
theorem hexChar_isLowerHex : ∀ d : Fin 16, isLowerHexDigit (hexChar d) = true := by decide

/-- The characters of `RandomId.generate`. -/
theorem randomId_generate_data (rand : Nat → Fin 16) (n : Nat) :
    (RandomId.generate rand n).data = (List.range n).map (fun i => hexChar (rand i)) := rfl

/-- `RandomId.generate` returns exactly `n` characters. -/
theorem randomId_generate_length (rand : Nat → Fin 16) (n : Nat) :
    (RandomId.generate rand n).length = n := by
  simp [String.length, randomId_generate_data]

/-- `RandomId.generate` returns only lowercase hex digits. -/
theorem randomId_generate_hex (rand : Nat → Fin 16) (n : Nat) :
    (RandomId.generate rand n).data.all isLowerHexDigit = true := by
  rw [randomId_generate_data]
  simp only [List.all_eq_true, List.mem_map, List.mem_range]
  rintro c ⟨i, -, rfl⟩
  exact hexChar_isLowerHex (rand i)

/-- The Python regex match of `validate_identifier` on a synthesized name
`rn + "_" + suffix` reduces to membership of every character of `rn` in the
class: the appended `"_" + suffix` consists of class characters and does not
end in a newline. -/
theorem reFullMatchPlus_synthesized (rn : String) (rand : Nat → Fin 16) :
    reFullMatchPlus identChar (rn ++ "_" ++ RandomId.generate rand 7) = rn.data.all identChar := by
  have hrange : List.range 7 = [0, 1, 2, 3, 4, 5, 6] := rfl
  have hdata : (rn ++ "_" ++ RandomId.generate rand 7).data
      = rn.data ++ '_' ::
          [hexChar (rand 0), hexChar (rand 1), hexChar (rand 2), hexChar (rand 3),
           hexChar (rand 4), hexChar (rand 5), hexChar (rand 6)] := by
    rw [String.data_append, String.data_append, randomId_generate_data, hrange]
    simp
  unfold reFullMatchPlus
  rw [hdata]
  rw [List.getLast?_append]
  simp only [List.getLast?_cons_cons, List.getLast?_singleton, Option.or_some]
  rw [if_neg (by simpa using hexChar_ne_newline (rand 6))]
  have hu : identChar '_' = true := rfl
  have hne : (rn.data ++ '_' ::
      [hexChar (rand 0), hexChar (rand 1), hexChar (rand 2), hexChar (rand 3),
       hexChar (rand 4), hexChar (rand 5), hexChar (rand 6)]).isEmpty = false := by
    simp
  rw [hne]
  simp [identChar_hexChar, hu]

/-! ## Claim theorems -/

/-- Claim C1: the claim states that `validate_identifier` fails for every
string containing a character outside `[A-Za-z0-9$_]`.  The code disagrees:
its compiled class `[A-Z,a-z,0-9$_]` contains the literal comma, so
`validate_identifier ","` succeeds and returns `","` even though `","`
matches the spec grammar nowhere.  (The commas were clearly meant as
separators, as in the project's own test regex `[a-f,0-9]{7}`.) -/
theorem validation_identifier_comma_bug :
    Validation.validate_identifier "," = Except.ok "," ∧ specIdentifierOk "," = false := by
  constructor <;> rfl

/-- Claim C2: the claim states that every object name containing punctuation
other than internal spaces fails `validate_object_name`.  The code disagrees
at the same comma: `validate_object_name ","` succeeds, though `","` is
punctuation and satisfies the spec's object-name grammar nowhere. -/
theorem validation_object_name_comma_bug :
    Validation.validate_object_name "," = Except.ok "," ∧ specObjectNameOk "," = false := by
  constructor <;> rfl

/-- Claim C6: a Value-Or-Token attribute given the token sentinel renders
`"{SQL_NAME} = {TOKEN_LITERAL}"` and binds nothing; given any other value it
delegates both `generate_sql` and `generate_bindings` to the wrapped
attribute unchanged. -/
theorem value_or_token_attribute_behavior (w : ValueOrTokenAttribute) (value : PyVal) :
    (value = PyVal.token w.token →
      w.generate_sql value = w.attr.sql_name ++ " = " ++ w.token.sql ∧
      w.generate_bindings value = Option.none) ∧
    (value ≠ PyVal.token w.token →
      w.generate_sql value = w.attr.value_generate_sql value ∧
      w.generate_bindings value = w.attr.value_generate_bindings value) := by
  constructor
  · intro h
    constructor
    · simp [ValueOrTokenAttribute.generate_sql, h]
    · simp [ValueOrTokenAttribute.generate_bindings, h]
  · intro h
    constructor
    · simp [ValueOrTokenAttribute.generate_sql, h]
    · simp [ValueOrTokenAttribute.generate_bindings, h]

/-- Witness for C6, on the concrete `compression` attribute with token
`NONE`: the sentinel inlines the token literal and binds nothing; the string
value `"GZIP"` delegates to the wrapped attribute's `"… = ?"` clause and one
binding. -/
theorem value_or_token_attribute_behavior_witness :
    compressionVot.generate_sql (PyVal.token noneToken) = "COMPRESSION = NONE" ∧
    compressionVot.generate_bindings (PyVal.token noneToken) = Option.none ∧
    compressionVot.generate_sql (PyVal.str "GZIP") = "COMPRESSION = ?" ∧
    compressionVot.generate_bindings (PyVal.str "GZIP") = some [PyVal.str "GZIP"] := by
  have h1 := (value_or_token_attribute_behavior compressionVot (PyVal.token noneToken)).1 rfl
  have h2 := (value_or_token_attribute_behavior compressionVot (PyVal.str "GZIP")).2 (by decide)
  exact ⟨h1.1.trans (by decide), h1.2, h2.1.trans (by decide), h2.2.trans (by decide)⟩

/-- Claim C9: the claim states the connection is closed on every exit path of
the SQL execution step.  The code disagrees: `connection.close()` stands
after the `try/finally` block, not inside a `finally`, so when
`cursor.execute` raises, the cursor is closed but the connection never is.
On the success path the connection is closed. -/
theorem execute_sql_connection_close_only_on_success :
    Event.closeConnection ∉ (executeSql ["CREATE FILE FORMAT tf", "TYPE = CSV"] [] true).1 ∧
    Event.closeConnection ∈ (executeSql ["CREATE FILE FORMAT tf", "TYPE = CSV"] [] false).1 := by
  constructor <;> decide

/-- Claim C10: `cursor.close()` sits in a `finally` block, so the cursor is
closed on both exit paths of `cursor.execute` — success and raise. -/
theorem execute_sql_always_closes_cursor (statement : List String) (bindings : List PyVal)
    (execFails : Bool) : Event.closeCursor ∈ (executeSql statement bindings execFails).1 := by
  cases execFails <;> simp [executeSql]

/-- If some attribute of the list is required and absent-or-null, the
required-attribute loop raises: a `KeyError` if the first offending required
attribute's key is absent, the `MissingRequiredAttribute` exception if its
key is present bound to `None`. -/
theorem checkRequiredLoop_error_of_missing (attrs : List Attr) (inputs : Inputs) (a : Attr)
    (ha : a ∈ attrs) (hreq : a.required = true)
    (hmiss : pyLookup inputs a.name = Option.none ∨ pyLookup inputs a.name = some PyVal.none) :
    ∃ e, SnowflakeObjectProvider.checkRequiredLoop attrs inputs = Except.error e ∧
      ∃ b ∈ attrs, b.required = true ∧
        ((pyLookup inputs b.name = Option.none ∧ e = Err.keyError b.name) ∨
         (pyLookup inputs b.name = some PyVal.none ∧ e = Err.missingRequiredAttribute b.name)) := by
  induction attrs with
  | nil => cases ha
  | cons b rest ih =>
    by_cases hb : b.required = true
    · cases hlb : pyLookup inputs b.name with
      | none =>
        refine ⟨Err.keyError b.name, ?_, b, List.mem_cons_self b rest, hb, Or.inl ⟨hlb, rfl⟩⟩
        simp [SnowflakeObjectProvider.checkRequiredLoop, hb, hlb]
      | some v =>
        by_cases hv : v = PyVal.none
        · subst hv
          refine ⟨Err.missingRequiredAttribute b.name, ?_, b, List.mem_cons_self b rest, hb,
            Or.inr ⟨hlb, rfl⟩⟩
          simp [SnowflakeObjectProvider.checkRequiredLoop, hb, hlb]
        · have ha' : a ∈ rest := by
            cases ha with
            | head =>
              exfalso
              rcases hmiss with h | h <;> rw [hlb] at h
              · cases h
              · exact hv (by injection h)
            | tail _ h => exact h
          obtain ⟨e, he, b', hb', hrest⟩ := ih ha'
          refine ⟨e, ?_, b', List.mem_cons_of_mem b hb', hrest⟩
          simpa [SnowflakeObjectProvider.checkRequiredLoop, hb, hlb, hv] using he
    · have ha' : a ∈ rest := by
        cases ha with
        | head => exact absurd hreq hb
        | tail _ h => exact h
      obtain ⟨e, he, b', hb', hrest⟩ := ih ha'
      refine ⟨e, ?_, b', List.mem_cons_of_mem b hb', hrest⟩
      simpa [SnowflakeObjectProvider.checkRequiredLoop, hb] using he

/-- Claim C3 (amended): for every AttributeSpec marked required, if the
inputs map has that attribute absent or bound to null, `create` fails before
any SQL is executed (the bridge is never invoked); the propagated exception
is `KeyError` when the first offending required attribute's key is absent
from the map (bracket access `inputs[name]`), and `MissingRequiredAttribute`
when that key is present bound to null. -/
theorem create_required_missing_fails_before_sql (p : SnowflakeObjectProvider)
    (rand : Nat → Fin 16) (execFails : Bool) (inputs : Inputs) (a : Attr)
    (ha : a ∈ p.attributes) (hreq : a.required = true)
    (hmiss : pyLookup inputs a.name = Option.none ∨ pyLookup inputs a.name = some PyVal.none) :
    (p.create rand execFails inputs).1 = [] ∧
    ∃ e, (p.create rand execFails inputs).2 = Except.error e ∧
      ∃ b ∈ p.attributes, b.required = true ∧
        ((pyLookup inputs b.name = Option.none ∧ e = Err.keyError b.name) ∨
         (pyLookup inputs b.name = some PyVal.none ∧ e = Err.missingRequiredAttribute b.name)) := by
  obtain ⟨e, he, hwit⟩ :=
    checkRequiredLoop_error_of_missing p.attributes inputs a ha hreq hmiss
  have hcra : p.check_required_attributes inputs = Except.error e := by
    simp [SnowflakeObjectProvider.check_required_attributes, he]
  refine ⟨?_, e, ?_, hwit⟩ <;> simp [SnowflakeObjectProvider.create, hcra]

/-- Witness for C3 (amended): the FILE FORMAT provider with required `type`
attribute, inputs lacking the `type` key entirely: `create` issues no bridge
call and propagates an error of the stated shape (concretely,
`KeyError 'type'`). -/
theorem create_required_missing_fails_before_sql_witness :
    (fileFormatProvider.create rand0 false []).1 = [] ∧
    ∃ e, (fileFormatProvider.create rand0 false []).2 = Except.error e ∧
      ∃ b ∈ fileFormatProvider.attributes, b.required = true ∧
        ((pyLookup [] b.name = Option.none ∧ e = Err.keyError b.name) ∨
         (pyLookup [] b.name = some PyVal.none ∧ e = Err.missingRequiredAttribute b.name)) :=
  create_required_missing_fails_before_sql fileFormatProvider rand0 false [] typeAttr
    (List.Mem.head _) rfl (Or.inl rfl)

/-- Counterexample for C3 as stated: with the required `type` attribute
absent from the inputs map (not merely null), `create` propagates the Python
`KeyError` from the bracket access `inputs[attribute.name]`, not the
`MissingRequiredAttribute` exception the claim names.  (No SQL is executed
either way.) -/
theorem create_absent_required_key_error :
    (fileFormatProvider.create rand0 false []).2 = Except.error (Err.keyError "type") ∧
    Err.keyError "type" ≠ Err.missingRequiredAttribute "type" ∧
    (fileFormatProvider.create rand0 false []).1 = [] := by
  refine ⟨rfl, ?_, rfl⟩
  decide

/-- Claim C4: provided the per-attribute required check passes, an inputs map
with both `name` and `resource_name` absent-or-null makes `create` fail with
`MissingNameAttribute` and no bridge call; and whenever at least one of the
two is present (non-null), `_check_required_attributes` passes. -/
theorem create_missing_name_attribute (p : SnowflakeObjectProvider) (rand : Nat → Fin 16)
    (execFails : Bool) (inputs : Inputs)
    (hloop : SnowflakeObjectProvider.checkRequiredLoop p.attributes inputs = Except.ok ()) :
    (pyGet inputs "name" = PyVal.none → pyGet inputs "resource_name" = PyVal.none →
      p.create rand execFails inputs = ([], Except.error Err.missingNameAttribute)) ∧
    (pyGet inputs "name" ≠ PyVal.none ∨ pyGet inputs "resource_name" ≠ PyVal.none →
      p.check_required_attributes inputs = Except.ok ()) := by
  constructor
  · intro h1 h2
    have hcra : p.check_required_attributes inputs = Except.error Err.missingNameAttribute := by
      simp [SnowflakeObjectProvider.check_required_attributes, hloop, h1, h2]
    simp [SnowflakeObjectProvider.create, hcra]
  · intro h
    have hcond : ¬(pyGet inputs "name" = PyVal.none ∧ pyGet inputs "resource_name" = PyVal.none) := by
      rcases h with h | h <;> exact fun hc => h (by simp [hc.1, hc.2])
    simp [SnowflakeObjectProvider.check_required_attributes, hloop, hcond]

/-- Witness for C4, on the FILE FORMAT provider: inputs with the required
`type` given but neither `name` nor `resource_name` make `create` return the
`MissingNameAttribute` error with an empty bridge trace; adding a `name`
makes the check pass. -/
theorem create_missing_name_attribute_witness :
    fileFormatProvider.create rand0 false [("type", PyVal.str "CSV")] =
      ([], Except.error Err.missingNameAttribute) ∧
    fileFormatProvider.check_required_attributes
      [("type", PyVal.str "CSV"), ("name", PyVal.str "test_file_format")] = Except.ok () :=
  ⟨(create_missing_name_attribute fileFormatProvider rand0 false
      [("type", PyVal.str "CSV")] rfl).1 rfl rfl,
   (create_missing_name_attribute fileFormatProvider rand0 false
      [("type", PyVal.str "CSV"), ("name", PyVal.str "test_file_format")] rfl).2
     (Or.inl (by decide))⟩

/-- Claim C5 (amended): with `name` absent-or-null and `resource_name` a
string `rn`, the synthesized name is exactly `rn` + `"_"` + 7 lowercase hex
characters, and it is passed through `validate_identifier` — so resolution
succeeds exactly when every character of `rn` lies in the validator's
character class (in particular, the empty `rn` succeeds with the name
`"_" + suffix` rather than failing).  When `name` is present it is passed to
`validate_identifier` and used as-is. -/
theorem autogenerated_name_resolution :
    (∀ (rand : Nat → Fin 16) (inputs : Inputs) (rn : String),
      pyGet inputs "name" = PyVal.none →
      pyLookup inputs "resource_name" = some (PyVal.str rn) →
      (RandomId.generate rand 7).length = 7 ∧
      (RandomId.generate rand 7).data.all isLowerHexDigit = true ∧
      SnowflakeObjectProvider.getValidatedAutogeneratedName rand inputs =
        (if rn.data.all identChar then
          Except.ok (rn ++ "_" ++ RandomId.generate rand 7)
        else
          Except.error (Err.invalidIdentifier (rn ++ "_" ++ RandomId.generate rand 7)))) ∧
    (∀ (rand : Nat → Fin 16) (inputs : Inputs) (s : String),
      pyGet inputs "name" = PyVal.str s →
      SnowflakeObjectProvider.getValidatedAutogeneratedName rand inputs =
        Validation.validate_identifier s) := by
  constructor
  · intro rand inputs rn hname hrn
    refine ⟨randomId_generate_length rand 7, randomId_generate_hex rand 7, ?_⟩
    rw [SnowflakeObjectProvider.getValidatedAutogeneratedName, hname, hrn]
    show Validation.validate_identifier (rn ++ "_" ++ RandomId.generate rand 7) = _
    rw [Validation.validate_identifier, reFullMatchPlus_synthesized]
  · intro rand inputs s hname
    rw [SnowflakeObjectProvider.getValidatedAutogeneratedName, hname]

/-- Witness for C5 (amended), at the spec's own example `resource_name =
"pulumi_test_x"` with the all-zero random source: the resolved name is
`pulumi_test_x_0000000`; and a present `name` goes through
`validate_identifier` unchanged. -/
theorem autogenerated_name_resolution_witness :
    SnowflakeObjectProvider.getValidatedAutogeneratedName rand0
      [("name", PyVal.none), ("resource_name", PyVal.str "pulumi_test_x")] =
      Except.ok "pulumi_test_x_0000000" ∧
    SnowflakeObjectProvider.getValidatedAutogeneratedName rand0
      [("name", PyVal.str "test_file_format")] =
      Validation.validate_identifier "test_file_format" := by
  constructor
  · exact ((autogenerated_name_resolution.1 rand0
      [("name", PyVal.none), ("resource_name", PyVal.str "pulumi_test_x")]
      "pulumi_test_x" rfl rfl).2.2).trans (by rfl)
  · exact autogenerated_name_resolution.2 rand0
      [("name", PyVal.str "test_file_format")] "test_file_format" rfl

/-- Counterexample for C5 as stated: the claim says resolution fails whenever
`resource_name` itself violates the identifier grammar.  The empty string
violates it (`^[A-Za-z0-9$_]+$` requires at least one character), yet with
`resource_name = ""` the synthesized name `"_" + suffix` is a valid
identifier and resolution succeeds. -/
theorem autogenerated_name_empty_resource_name :
    SnowflakeObjectProvider.getValidatedAutogeneratedName rand0
      [("resource_name", PyVal.str "")] = Except.ok "_0000000" ∧
    specIdentifierOk "" = false := by
  constructor <;> rfl

/-- Claim C7: whenever validation and name resolution pass, `create` hands
the bridge exactly one statement: the header line from
`generate_sql_create_header`, then one `generate_sql` clause line per
attribute whose input value is non-null, in declared attribute order, joined
by newline. -/
theorem create_statement_assembly (p : SnowflakeObjectProvider) (rand : Nat → Fin 16)
    (execFails : Bool) (inputs : Inputs) (n : String)
    (hreq : p.check_required_attributes inputs = Except.ok ())
    (hname : SnowflakeObjectProvider.getValidatedAutogeneratedName rand inputs = Except.ok n) :
    (execCalls (p.create rand execFails inputs).1).map Prod.fst =
      [String.intercalate "\n"
        (p.generate_sql_create_header n inputs ::
          (p.attributes.filter (fun a => pyGet inputs a.name ≠ PyVal.none)).map
            (fun a => a.generate_sql (pyGet inputs a.name)))] := by
  cases execFails <;>
    simp [SnowflakeObjectProvider.create, hreq, hname, executeSql, execCalls,
      SnowflakeObjectProvider.generateSqlCreateStatement]

/-- Witness for C7: the FILE FORMAT example of the spec — inputs
`{type: CSV, name: test_file_format}` — produces the single statement
`CREATE FILE FORMAT test_file_format\nTYPE = CSV`. -/
theorem create_statement_assembly_witness :
    (execCalls (fileFormatProvider.create rand0 false
        [("type", PyVal.str "CSV"), ("name", PyVal.str "test_file_format")]).1).map Prod.fst =
      ["CREATE FILE FORMAT test_file_format\nTYPE = CSV"] :=
  (create_statement_assembly fileFormatProvider rand0 false
      [("type", PyVal.str "CSV"), ("name", PyVal.str "test_file_format")]
      "test_file_format" rfl rfl).trans (by decide)

/-- Claim C8: whenever validation and name resolution pass, the bindings
sequence handed to the bridge is the flattening of the non-`None` binding
tuples of the same selected attributes, in the same declared order —
attributes whose `generate_bindings` returns `None` contribute nothing. -/
theorem create_bindings_assembly (p : SnowflakeObjectProvider) (rand : Nat → Fin 16)
    (execFails : Bool) (inputs : Inputs) (n : String)
    (hreq : p.check_required_attributes inputs = Except.ok ())
    (hname : SnowflakeObjectProvider.getValidatedAutogeneratedName rand inputs = Except.ok n) :
    (execCalls (p.create rand execFails inputs).1).map Prod.snd =
      [((p.attributes.filter (fun a => pyGet inputs a.name ≠ PyVal.none)).filterMap
          (fun a => a.generate_bindings (pyGet inputs a.name))).flatten] := by
  cases execFails <;>
    simp [SnowflakeObjectProvider.create, hreq, hname, executeSql, execCalls,
      SnowflakeObjectProvider.generateSqlCreateBindings, List.filterMap_map, Function.comp]

/-- Witness for C8, on the three-attribute provider: `type` binds nothing,
`compression` (token value) binds nothing, `comment` binds its value — the
bindings sequence is exactly `["a comment"]`. -/
theorem create_bindings_assembly_witness :
    (execCalls (threeAttrProvider.create rand0 false
        [("type", PyVal.str "CSV"), ("compression", PyVal.str "NONE"),
         ("comment", PyVal.str "a comment"), ("name", PyVal.str "test_file_format")]).1).map
      Prod.snd = [[PyVal.str "a comment"]] :=
  (create_bindings_assembly threeAttrProvider rand0 false
      [("type", PyVal.str "CSV"), ("compression", PyVal.str "NONE"),
       ("comment", PyVal.str "a comment"), ("name", PyVal.str "test_file_format")]
      "test_file_format" rfl rfl).trans (by decide)

end PulumiSnowflake
